import Mathlib

/-!
Verification of the Fall-Analysis-App repository (TypeScript/JavaScript)
against its natural-language specification.

The development shallowly embeds the relevant source functions:

* `src/components/CameraInput.tsx` — three capture-component variants:
  - variant 1: `compressImage` (file upload only, cap 1600);
  - variant 2: multi-image `processImage` (live camera + files, cap 1024,
    staging list `capturedImages` with per-index removal);
  - variant 3: single-image `processImageToBase64` (live camera + file,
    cap 1600, horizontal mirroring when the front lens is active).
* `src/server.js` — the express `/analyze` route (image check, API-key
  lookup, upstream-error classification), behind `app.use(cors())`.
* `src/api/analyze.js` — the Vercel handler (adds CORS/OPTIONS/405
  handling in front of the same route logic).
* `src/services/geminiService.ts` — the fetch client that maps HTTP
  status codes and error bodies to user-facing messages.
* `src/App.tsx` — the UI state shell over `AppState`.

JavaScript pixel dimensions are modelled as rationals (the source does
IEEE float arithmetic and then lets the canvas coerce `canvas.width`;
the claims under test are about the arithmetic the source performs, which
is exact division and multiplication, so `ℚ` is the faithful carrier).
JavaScript falsiness of strings (`!s` true for `undefined` and `""`) is
modelled explicitly on `Option String`.
-/

/-- JS falsiness for an optional string value: `undefined`/absent and the
empty string are falsy (`if (!x)` takes the branch). -/
def jsFalsy : Option String → Bool
  | none => true
  | some s => s = ""

/-- JS `a || b` on optional string values: yields `a` when `a` is truthy,
otherwise `b`. -/
def jsOrElse (a b : Option String) : Option String :=
  if jsFalsy a then b else a

/-- Whether `pat` is a pattern starting at the head of `l` (character list). -/
def charHeadMatch : List Char → List Char → Bool
  | [], _ => true
  | _ :: _, [] => false
  | a :: as, b :: bs => a == b && charHeadMatch as bs

/-- Whether `pat` occurs contiguously somewhere inside `l`. -/
def charContainsSub (pat : List Char) : List Char → Bool
  | [] => charHeadMatch pat []
  | b :: bs => charHeadMatch pat (b :: bs) || charContainsSub pat bs

/-- JS `s.includes(pat)`: substring containment on strings. -/
def strIncludes (s pat : String) : Bool :=
  charContainsSub pat.toList s.toList

/-! ## Image normalization (`CameraInput.tsx`)

`compressImage` (variant 1, lines 12–60), `processImageToBase64`
(variant 3, lines 348–384) and `processImage` (variant 2, lines 169–187)
each downscale `(w, h)` so the longer edge fits a cap, preserving the
aspect ratio and never upscaling. -/

/-- Dimension scaling of `compressImage` (cap `MAX_WIDTH = MAX_HEIGHT = 1600`):
`if (width > height) { if (width > MAX_WIDTH) { height *= MAX_WIDTH / width;
width = MAX_WIDTH; } } else { if (height > MAX_HEIGHT) { width *= MAX_HEIGHT
/ height; height = MAX_HEIGHT; } }`. -/
def compressImageDims (w h : ℚ) : ℚ × ℚ :=
  if w > h then
    if w > 1600 then (1600, h * (1600 / w)) else (w, h)
  else
    if h > 1600 then (w * (1600 / h), 1600) else (w, h)

/-- Dimension scaling of `processImageToBase64` (variant 3): identical
arithmetic to `compressImage`, cap 1600. -/
def processImageToBase64Dims (w h : ℚ) : ℚ × ℚ :=
  if w > h then
    if w > 1600 then (1600, h * (1600 / w)) else (w, h)
  else
    if h > 1600 then (w * (1600 / h), 1600) else (w, h)

/-- Dimension scaling of `processImage` (variant 2, cap `MAX_SIZE = 1024`):
`if (w > h && w > MAX_SIZE) { h *= MAX_SIZE / w; w = MAX_SIZE; }
else if (h > MAX_SIZE) { w *= MAX_SIZE / h; h = MAX_SIZE; }`. -/
def processImageDims (w h : ℚ) : ℚ × ℚ :=
  if w > h ∧ w > 1024 then (1024, h * (1024 / w))
  else if h > 1024 then (w * (1024 / h), 1024)
  else (w, h)

/-- Shared shape of all three scalers, abstracted over the cap. -/
def scaleDown (m w h : ℚ) : ℚ × ℚ :=
  if w > h then
    if w > m then (m, h * (m / w)) else (w, h)
  else
    if h > m then (w * (m / h), m) else (w, h)

lemma compressImageDims_eq_scaleDown (w h : ℚ) :
    compressImageDims w h = scaleDown 1600 w h := rfl

lemma processImageToBase64Dims_eq_scaleDown (w h : ℚ) :
    processImageToBase64Dims w h = scaleDown 1600 w h := rfl

lemma processImageDims_eq_scaleDown (w h : ℚ) :
    processImageDims w h = scaleDown 1024 w h := by
  unfold processImageDims scaleDown
  by_cases h1 : w > h
  · by_cases h2 : w > 1024
    · simp [h1, h2]
    · have h3 : ¬ h > 1024 := by linarith
      simp [h1, h2, h3]
  · simp [h1]

lemma scaleDown_le (m w h : ℚ) (hm : 0 < m) :
    (scaleDown m w h).1 ≤ m ∧ (scaleDown m w h).2 ≤ m := by
  unfold scaleDown
  by_cases h1 : w > h
  · by_cases h2 : w > m
    · have hwpos : 0 < w := lt_trans hm h2
      have hle : h * (m / w) ≤ m := by
        rw [mul_div_assoc', div_le_iff₀ hwpos]
        nlinarith
      rw [if_pos h1, if_pos h2]
      exact ⟨le_rfl, hle⟩
    · push_neg at h2
      rw [if_pos h1, if_neg (by linarith)]
      exact ⟨h2, by linarith⟩
  · push_neg at h1
    by_cases h2 : h > m
    · have hhpos : 0 < h := lt_trans hm h2
      have hle : w * (m / h) ≤ m := by
        rw [mul_div_assoc', div_le_iff₀ hhpos]
        nlinarith
      rw [if_neg (by linarith), if_pos h2]
      exact ⟨hle, le_rfl⟩
    · push_neg at h2
      rw [if_neg (by linarith), if_neg (by linarith)]
      exact ⟨by linarith, h2⟩

lemma scaleDown_aspect (m w h : ℚ) (hm : 0 < m) :
    (scaleDown m w h).1 * h = w * (scaleDown m w h).2 := by
  unfold scaleDown
  by_cases h1 : w > h
  · by_cases h2 : w > m
    · have hwpos : 0 < w := lt_trans hm h2
      have hwne : w ≠ 0 := ne_of_gt hwpos
      rw [if_pos h1, if_pos h2]
      field_simp
      ring
    · rw [if_pos h1, if_neg h2]
  · by_cases h2 : h > m
    · have hhpos : 0 < h := lt_trans hm h2
      have hhne : h ≠ 0 := ne_of_gt hhpos
      rw [if_neg h1, if_pos h2]
      field_simp
    · rw [if_neg h1, if_neg h2]

lemma scaleDown_no_upscale (m w h : ℚ) (hwm : w ≤ m) (hhm : h ≤ m) :
    scaleDown m w h = (w, h) := by
  unfold scaleDown
  by_cases h1 : w > h
  · rw [if_pos h1, if_neg (by linarith)]
  · rw [if_neg h1, if_neg (by linarith)]

/-- Claim C1: for every input image with dimensions `(w, h)`, each
normalization function produces output dimensions whose longer edge is at
most its configured maximum (1600 for `compressImage` and
`processImageToBase64`, 1024 for `processImage`), the aspect ratio is
preserved (exactly, in the source's own arithmetic: `w' * h = w * h'`),
and when both `w` and `h` are already at or below the cap the output
equals `(w, h)` — the image is never upscaled. -/
theorem c1_image_normalization (w h : ℚ) (hw : 0 ≤ w) (hh : 0 ≤ h) :
    ((compressImageDims w h).1 ≤ 1600 ∧ (compressImageDims w h).2 ≤ 1600
      ∧ (compressImageDims w h).1 * h = w * (compressImageDims w h).2
      ∧ (w ≤ 1600 → h ≤ 1600 → compressImageDims w h = (w, h)))
    ∧ ((processImageToBase64Dims w h).1 ≤ 1600
      ∧ (processImageToBase64Dims w h).2 ≤ 1600
      ∧ (processImageToBase64Dims w h).1 * h = w * (processImageToBase64Dims w h).2
      ∧ (w ≤ 1600 → h ≤ 1600 → processImageToBase64Dims w h = (w, h)))
    ∧ ((processImageDims w h).1 ≤ 1024 ∧ (processImageDims w h).2 ≤ 1024
      ∧ (processImageDims w h).1 * h = w * (processImageDims w h).2
      ∧ (w ≤ 1024 → h ≤ 1024 → processImageDims w h = (w, h))) := by
  have h1600 : (0 : ℚ) < 1600 := by norm_num
  have h1024 : (0 : ℚ) < 1024 := by norm_num
  refine ⟨?_, ?_, ?_⟩
  · rw [compressImageDims_eq_scaleDown]
    exact ⟨(scaleDown_le 1600 w h h1600).1, (scaleDown_le 1600 w h h1600).2,
      scaleDown_aspect 1600 w h h1600,
      fun hwc hhc => scaleDown_no_upscale 1600 w h hwc hhc⟩
  · rw [processImageToBase64Dims_eq_scaleDown]
    exact ⟨(scaleDown_le 1600 w h h1600).1, (scaleDown_le 1600 w h h1600).2,
      scaleDown_aspect 1600 w h h1600,
      fun hwc hhc => scaleDown_no_upscale 1600 w h hwc hhc⟩
  · rw [processImageDims_eq_scaleDown]
    exact ⟨(scaleDown_le 1024 w h h1024).1, (scaleDown_le 1024 w h h1024).2,
      scaleDown_aspect 1024 w h h1024,
      fun hwc hhc => scaleDown_no_upscale 1024 w h hwc hhc⟩

/-- Claim C1 witness: the spec's round-trip scenario, a 2000×1000 image.
The 1600-cap functions yield (1600, 800); the 1024-cap one yields
(1024, 512). -/
theorem c1_image_normalization_witness :
    (0 : ℚ) ≤ 2000 ∧ (0 : ℚ) ≤ 1000
    ∧ (((compressImageDims 2000 1000).1 ≤ 1600
        ∧ (compressImageDims 2000 1000).2 ≤ 1600
        ∧ (compressImageDims 2000 1000).1 * 1000 = 2000 * (compressImageDims 2000 1000).2
        ∧ ((2000 : ℚ) ≤ 1600 → (1000 : ℚ) ≤ 1600 → compressImageDims 2000 1000 = (2000, 1000)))
      ∧ ((processImageToBase64Dims 2000 1000).1 ≤ 1600
        ∧ (processImageToBase64Dims 2000 1000).2 ≤ 1600
        ∧ (processImageToBase64Dims 2000 1000).1 * 1000 = 2000 * (processImageToBase64Dims 2000 1000).2
        ∧ ((2000 : ℚ) ≤ 1600 → (1000 : ℚ) ≤ 1600 → processImageToBase64Dims 2000 1000 = (2000, 1000)))
      ∧ ((processImageDims 2000 1000).1 ≤ 1024
        ∧ (processImageDims 2000 1000).2 ≤ 1024
        ∧ (processImageDims 2000 1000).1 * 1000 = 2000 * (processImageDims 2000 1000).2
        ∧ ((2000 : ℚ) ≤ 1024 → (1000 : ℚ) ≤ 1024 → processImageDims 2000 1000 = (2000, 1000)))) :=
  ⟨by norm_num, by norm_num,
    c1_image_normalization 2000 1000 (by norm_num) (by norm_num)⟩

/-! ## Proxy endpoints (`src/server.js`, `src/api/analyze.js`) and the
request client (`src/services/geminiService.ts`)

The upstream call (`ai.models.generateContent`, the `response.text` null
check, and `JSON.parse`) is abstracted as an `Except JsError String`
parameter: `Except.ok text` is a successfully parsed upstream payload,
`Except.error e` is any value thrown inside the `try` block. The second
component of each handler's result records whether the upstream API was
invoked. -/

/-- JS `a || d` where `d` is a non-empty string default. -/
def jsOrDefault (a : Option String) (d : String) : String :=
  if jsFalsy a then d else a.getD d

/-- Body of an HTTP response produced by the handlers. -/
inductive RespBody
  | empty
  | json (payload : String)
  | errJson (msg : String)
  | page (text : String)
deriving DecidableEq

/-- HTTP response: status code plus body. -/
structure HttpResponse where
  status : Nat
  body : RespBody
deriving DecidableEq

/-- The `error` field of an error-JSON body, if the body is one. -/
def respErrorText : RespBody → Option String
  | .errJson m => some m
  | _ => none

/-- A value thrown in JS and caught by the route's `catch`: its
stringification `error.toString()` and its `message` property (absent for
thrown non-`Error` values). -/
structure JsError where
  toStr : String
  message : Option String
deriving DecidableEq

/-- The `catch` block shared verbatim by `server.js` and `api/analyze.js`:
a stringified error containing `"429"` or `"RESOURCE_EXHAUSTED"` is
relayed as 429; anything else as 500 with `error.message ||
'Internal Server Error'`. -/
def catchClassify (e : JsError) : HttpResponse :=
  if strIncludes e.toStr "429" || strIncludes e.toStr "RESOURCE_EXHAUSTED" then
    ⟨429, .errJson "API usage limit exceeded. Please try again later."⟩
  else
    ⟨500, .errJson (jsOrDefault e.message "Internal Server Error")⟩

/-- Environment variables read by `server.js`. -/
structure ServerEnv where
  apiKeyVar : Option String
  viteApiKeyVar : Option String
deriving DecidableEq

/-- `process.env.API_KEY || process.env.VITE_API_KEY` (`server.js` line 100). -/
def serverApiKey (env : ServerEnv) : Option String :=
  jsOrElse env.apiKeyVar env.viteApiKeyVar

/-- The body of `app.post('/analyze', ...)` in `server.js`: reject a falsy
`image` with 400; reject a falsy API key with 500 and the `API_KEY`
marker message; otherwise call upstream and relay its outcome. The `Bool`
records whether the upstream generation API was invoked. -/
def serverAnalyze (env : ServerEnv) (image : Option String)
    (up : Except JsError String) : HttpResponse × Bool :=
  if jsFalsy image then (⟨400, .errJson "Image data is required"⟩, false)
  else if jsFalsy (serverApiKey env) then
    (⟨500, .errJson "Server configuration error: API_KEY is missing."⟩, false)
  else
    match up with
    | .ok text => (⟨200, .json text⟩, true)
    | .error e => (catchClassify e, true)

/-- HTTP request methods. -/
inductive HttpMethod
  | GET | POST | PUT | DELETE | PATCH | OPTIONS | HEAD
deriving DecidableEq

/-- Environment variables read by `api/analyze.js`. -/
structure VercelEnv where
  apiKeyVar : Option String
  viteApiKeyVar : Option String
  nextPublicApiKeyVar : Option String
deriving DecidableEq

/-- `process.env.API_KEY || process.env.VITE_API_KEY ||
process.env.NEXT_PUBLIC_API_KEY` (`api/analyze.js` line 114). -/
def vercelApiKey (env : VercelEnv) : Option String :=
  jsOrElse (jsOrElse env.apiKeyVar env.viteApiKeyVar) env.nextPublicApiKeyVar

/-- The Vercel `handler` in `api/analyze.js`: OPTIONS preflight is answered
with 200 and an empty body; any other non-POST method gets 405; then the
same image/key/upstream logic as the express route (with a
Vercel-specific key-missing message). -/
def vercelHandler (env : VercelEnv) (method : HttpMethod) (image : Option String)
    (up : Except JsError String) : HttpResponse × Bool :=
  if method = .OPTIONS then (⟨200, .empty⟩, false)
  else if method ≠ .POST then (⟨405, .errJson "Method Not Allowed"⟩, false)
  else if jsFalsy image then (⟨400, .errJson "Image data is required"⟩, false)
  else if jsFalsy (vercelApiKey env) then
    (⟨500, .errJson "Server configuration error: API_KEY is missing in Vercel settings."⟩, false)
  else
    match up with
    | .ok text => (⟨200, .json text⟩, true)
    | .error e => (catchClassify e, true)

/-- `app.use(cors())` in `server.js`: the `cors` package with default
options intercepts every OPTIONS request and ends it with its default
`optionsSuccessStatus` of 204 and an empty body; all other methods pass
through to the routes. -/
def corsMiddleware (method : HttpMethod) : Option HttpResponse :=
  if method = .OPTIONS then some ⟨204, .empty⟩ else none

/-- Request dispatch of the express app in `server.js`: after the cors
middleware, the only registered route is `app.post('/analyze', ...)`;
express answers requests matching no route with its default 404 handler
(an HTML `Cannot <METHOD> <path>` page) — the app registers no 405
handling. -/
def expressDispatch (env : ServerEnv) (method : HttpMethod) (path : String)
    (image : Option String) (up : Except JsError String) : HttpResponse :=
  match corsMiddleware method with
  | some r => r
  | none =>
    if method = .POST ∧ path = "/analyze" then (serverAnalyze env image up).1
    else ⟨404, .page "Cannot find route"⟩

/-- Client message thrown for an HTTP 429 (`geminiService.ts` line 23). -/
def rateLimitClientMsg : String := "⚠️ 免費版 API 用量已達上限，請稍後再試。"

/-- Client message thrown for a 500 whose error field mentions `API_KEY`
(`geminiService.ts` line 27). -/
def apiKeyClientMsg : String := "伺服器 API Key 設定錯誤。請檢查 backend 環境變數。"

/-- The non-ok branch of `analyzeFallReport` in `geminiService.ts`
(single-image fetch client): 429 maps to the rate-limit message; a 500
whose `errorData.error` contains `"API_KEY"` maps to the setup-guidance
message; anything else throws `errorData.error` or a generic
`伺服器錯誤 (status)` fallback. `errorField` is `errorData.error`
(absent when the error body fails to parse). -/
def clientThrownMessage (status : Nat) (errorField : Option String) : String :=
  if status == 429 then rateLimitClientMsg
  else if status == 500
      && (match errorField with
          | some e => strIncludes e "API_KEY"
          | none => false) then apiKeyClientMsg
  else jsOrDefault errorField ("伺服器錯誤 (" ++ toString status ++ ")")

/-- `isRateLimit` in `App.tsx` line 39. -/
def appIsRateLimit (errorMsg : String) : Bool :=
  strIncludes errorMsg "用量已達上限" || strIncludes errorMsg "RESOURCE_EXHAUSTED"

/-- The error-view heading in `App.tsx` line 111: rate-limit copy versus
generic failure copy. -/
def appErrorHeading (errorMsg : String) : String :=
  if appIsRateLimit errorMsg then "分析請求過於頻繁" else "分析失敗"

/-- `isEnvError` in `App.tsx` line 43 (drives the setup-guidance panel). -/
def appIsEnvError (errorMsg : String) : Bool :=
  strIncludes errorMsg "Vercel 環境變數" || strIncludes errorMsg "API_KEY"

/-- Claim C2 counterexample: the claim quantifies over every request with
no credential set, but a request whose body lacks an image is answered
400 (the image check runs first), not 500 — so the claim as stated fails
at the no-image request. -/
theorem c2_counterexample :
    (serverAnalyze ⟨none, none⟩ none (Except.ok "ok")).1.status = 400
    ∧ (serverAnalyze ⟨none, none⟩ none (Except.ok "ok")).1.status ≠ 500
    ∧ (vercelHandler ⟨none, none, none⟩ .POST none (Except.ok "ok")).1.status = 400
    ∧ (vercelHandler ⟨none, none, none⟩ .POST none (Except.ok "ok")).1.status ≠ 500 := by
  decide

/-- Claim C2 (amended): for every request carrying a truthy image payload
in which no API credential environment variable is set, the proxy (both
variants) responds 500 with an error body containing the substring
`API_KEY`, and the client classifies any 500 whose error field contains
`API_KEY` as the server-misconfiguration case, throwing the
setup-guidance message rather than the generic one. -/
theorem c2_missing_api_key (image : Option String) (up : Except JsError String)
    (himg : jsFalsy image = false) :
    ((serverAnalyze ⟨none, none⟩ image up).1.status = 500
      ∧ ∃ msg, respErrorText (serverAnalyze ⟨none, none⟩ image up).1.body = some msg
          ∧ strIncludes msg "API_KEY" = true)
    ∧ ((vercelHandler ⟨none, none, none⟩ .POST image up).1.status = 500
      ∧ ∃ msg, respErrorText (vercelHandler ⟨none, none, none⟩ .POST image up).1.body = some msg
          ∧ strIncludes msg "API_KEY" = true)
    ∧ (∀ err : String, strIncludes err "API_KEY" = true →
        clientThrownMessage 500 (some err) = apiKeyClientMsg)
    ∧ apiKeyClientMsg ≠ "伺服器錯誤 (" ++ toString 500 ++ ")" := by
  refine ⟨?_, ?_, ?_, by decide⟩
  · simp only [serverAnalyze, himg, Bool.false_eq_true, if_false]
    have hkey : jsFalsy (serverApiKey ⟨none, none⟩) = true := by decide
    rw [hkey]
    exact ⟨rfl, "Server configuration error: API_KEY is missing.", rfl, by decide⟩
  · simp only [vercelHandler, himg, Bool.false_eq_true, if_false,
      reduceCtorEq, ite_false, ne_eq, not_false_eq_true, ite_true]
    have hkey : jsFalsy (vercelApiKey ⟨none, none, none⟩) = true := by decide
    rw [hkey]
    exact ⟨rfl, "Server configuration error: API_KEY is missing in Vercel settings.",
      rfl, by decide⟩
  · intro err herr
    simp [clientThrownMessage, herr]

/-- Claim C2 witness: a concrete request with an image and no credentials. -/
theorem c2_missing_api_key_witness :
    jsFalsy (some "imgdata") = false
    ∧ (((serverAnalyze ⟨none, none⟩ (some "imgdata") (Except.ok "ok")).1.status = 500
      ∧ ∃ msg, respErrorText (serverAnalyze ⟨none, none⟩ (some "imgdata") (Except.ok "ok")).1.body = some msg
          ∧ strIncludes msg "API_KEY" = true)
    ∧ ((vercelHandler ⟨none, none, none⟩ .POST (some "imgdata") (Except.ok "ok")).1.status = 500
      ∧ ∃ msg, respErrorText (vercelHandler ⟨none, none, none⟩ .POST (some "imgdata") (Except.ok "ok")).1.body = some msg
          ∧ strIncludes msg "API_KEY" = true)
    ∧ (∀ err : String, strIncludes err "API_KEY" = true →
        clientThrownMessage 500 (some err) = apiKeyClientMsg)
    ∧ apiKeyClientMsg ≠ "伺服器錯誤 (" ++ toString 500 ++ ")") :=
  ⟨by decide, c2_missing_api_key (some "imgdata") (Except.ok "ok") (by decide)⟩

/-- Claim C3 counterexample: a thrown value with no rate-limit marker and
no truthy `message` property (e.g. a thrown string `"boom"`) is relayed
as 500 with the fallback text `Internal Server Error`, not with the
upstream error's own message — `error.message || 'Internal Server Error'`
replaces a falsy message. -/
theorem c3_counterexample :
    strIncludes "boom" "429" = false
    ∧ strIncludes "boom" "RESOURCE_EXHAUSTED" = false
    ∧ (serverAnalyze ⟨some "k", none⟩ (some "img")
        (Except.error ⟨"boom", none⟩)).1
        = ⟨500, .errJson "Internal Server Error"⟩
    ∧ (HttpResponse.mk 500 (.errJson "Internal Server Error"))
        ≠ ⟨500, .errJson "boom"⟩ := by
  decide

/-- Conclusion of the amended claim C3, abbreviated for reuse by its
witness. -/
def c3Conclusion (env : ServerEnv) (venv : VercelEnv) (image : Option String)
    (e : JsError) : Prop :=
  ((strIncludes e.toStr "429" = true ∨ strIncludes e.toStr "RESOURCE_EXHAUSTED" = true) →
      (serverAnalyze env image (Except.error e)).1.status = 429
      ∧ (vercelHandler venv .POST image (Except.error e)).1.status = 429)
  ∧ (strIncludes e.toStr "429" = false → strIncludes e.toStr "RESOURCE_EXHAUSTED" = false →
      (serverAnalyze env image (Except.error e)).1.status = 500
      ∧ (jsFalsy e.message = false →
          respErrorText (serverAnalyze env image (Except.error e)).1.body = e.message)
      ∧ (jsFalsy e.message = true →
          respErrorText (serverAnalyze env image (Except.error e)).1.body
            = some "Internal Server Error")
      ∧ (vercelHandler venv .POST image (Except.error e)).1
          = (serverAnalyze env image (Except.error e)).1)
  ∧ (∀ errorField, clientThrownMessage 429 errorField = rateLimitClientMsg)
  ∧ appIsRateLimit rateLimitClientMsg = true
  ∧ appErrorHeading rateLimitClientMsg = "分析請求過於頻繁"
  ∧ appErrorHeading "分析失敗，請檢查網絡或照片清晰度，然後重試。" = "分析失敗"
  ∧ ("分析請求過於頻繁" : String) ≠ "分析失敗"

/-- Claim C3 (amended): an upstream error whose stringification contains a
rate-limit marker (`429` or `RESOURCE_EXHAUSTED`) is relayed as 429 by
both proxy variants; any other upstream error is relayed as 500 with the
upstream error message when that message is truthy, and with the fallback
`Internal Server Error` when it is falsy; the client turns a 429 into the
rate-limit message, which the UI renders through the `isRateLimit` branch
with copy distinct from the generic failure copy. -/
theorem c3_upstream_error_relay (env : ServerEnv) (venv : VercelEnv)
    (image : Option String) (e : JsError)
    (himg : jsFalsy image = false)
    (hkey : jsFalsy (serverApiKey env) = false)
    (hvkey : jsFalsy (vercelApiKey venv) = false) :
    c3Conclusion env venv image e := by
  have hserver : (serverAnalyze env image (Except.error e)).1 = catchClassify e := by
    simp [serverAnalyze, himg, hkey]
  have hvercel : (vercelHandler venv .POST image (Except.error e)).1 = catchClassify e := by
    simp [vercelHandler, himg, hvkey]
  unfold c3Conclusion
  rw [hserver, hvercel]
  refine ⟨?_, ?_, ?_, by decide, by decide, by decide, by decide⟩
  · intro hmark
    rcases hmark with hm | hm <;> simp [catchClassify, hm]
  · intro h429 hres
    have hcc : catchClassify e
        = ⟨500, .errJson (jsOrDefault e.message "Internal Server Error")⟩ := by
      unfold catchClassify
      rw [h429, hres]
      simp
    rw [hcc]
    refine ⟨rfl, ?_, ?_, rfl⟩
    · intro hmsg
      cases hme : e.message with
      | none => rw [hme] at hmsg; simp [jsFalsy] at hmsg
      | some s =>
        rw [hme] at hmsg
        simp [respErrorText, jsOrDefault, hme, hmsg]
    · intro hmsg
      simp [respErrorText, jsOrDefault, hmsg]
  · intro errorField
    simp [clientThrownMessage]

/-- Claim C3 witness: a concrete `RESOURCE_EXHAUSTED` upstream error
against a configured server with a non-empty image. -/
theorem c3_upstream_error_relay_witness :
    jsFalsy (some "img") = false
    ∧ jsFalsy (serverApiKey ⟨some "k", none⟩) = false
    ∧ jsFalsy (vercelApiKey ⟨some "k", none, none⟩) = false
    ∧ c3Conclusion ⟨some "k", none⟩ ⟨some "k", none, none⟩ (some "img")
        ⟨"Error: RESOURCE_EXHAUSTED", some "quota"⟩ :=
  ⟨by decide, by decide, by decide,
    c3_upstream_error_relay ⟨some "k", none⟩ ⟨some "k", none, none⟩ (some "img")
      ⟨"Error: RESOURCE_EXHAUSTED", some "quota"⟩ (by decide) (by decide) (by decide)⟩

/-- Claim C4: a POST whose body lacks a truthy image payload (absent or
empty string) is answered 400 with an error body by both proxy variants,
and the upstream generation API is not called (the `Bool` component is
`false`). -/
theorem c4_missing_image_rejected (env : ServerEnv) (venv : VercelEnv)
    (image : Option String) (up : Except JsError String)
    (himg : jsFalsy image = true) :
    serverAnalyze env image up = (⟨400, .errJson "Image data is required"⟩, false)
    ∧ vercelHandler venv .POST image up
        = (⟨400, .errJson "Image data is required"⟩, false) := by
  constructor
  · simp [serverAnalyze, himg]
  · simp [vercelHandler, himg]

/-- Claim C4 witness: the empty-string image payload. -/
theorem c4_missing_image_rejected_witness :
    jsFalsy (some "") = true
    ∧ (serverAnalyze ⟨some "k", none⟩ (some "") (Except.ok "ok")
        = (⟨400, .errJson "Image data is required"⟩, false)
      ∧ vercelHandler ⟨some "k", none, none⟩ .POST (some "") (Except.ok "ok")
        = (⟨400, .errJson "Image data is required"⟩, false)) :=
  ⟨by decide, c4_missing_image_rejected ⟨some "k", none⟩ ⟨some "k", none, none⟩
    (some "") (Except.ok "ok") (by decide)⟩

/-- Claim C5 counterexample: the express variant does not behave as the
claim states — a GET to `/analyze` falls through to express's default
404 handler (not 405), and the cors middleware answers OPTIONS with its
default 204 (not 200). -/
theorem c5_counterexample :
    expressDispatch ⟨some "k", none⟩ .GET "/analyze" (some "img") (Except.ok "ok")
      = ⟨404, .page "Cannot find route"⟩
    ∧ (404 : Nat) ≠ 405
    ∧ expressDispatch ⟨some "k", none⟩ .OPTIONS "/analyze" (some "img") (Except.ok "ok")
      = ⟨204, .empty⟩
    ∧ (204 : Nat) ≠ 200 := by
  decide

/-- Claim C5 (amended): the Vercel handler answers OPTIONS with 200 and an
empty body and rejects every other non-POST method with 405; the express
server instead answers OPTIONS through the cors middleware with 204 and
an empty body, and answers every other non-POST method with express's
default 404 — it has no 405 handling of its own. -/
theorem c5_methods (venv : VercelEnv) (env : ServerEnv) (m : HttpMethod)
    (path : String) (image : Option String) (up : Except JsError String)
    (h1 : m ≠ .OPTIONS) (h2 : m ≠ .POST) :
    vercelHandler venv .OPTIONS image up = (⟨200, .empty⟩, false)
    ∧ vercelHandler venv m image up = (⟨405, .errJson "Method Not Allowed"⟩, false)
    ∧ expressDispatch env .OPTIONS path image up = ⟨204, .empty⟩
    ∧ (expressDispatch env m path image up).status = 404 := by
  refine ⟨by simp [vercelHandler], ?_, by simp [expressDispatch, corsMiddleware], ?_⟩
  · simp [vercelHandler, h1, h2]
  · have hcond : ¬ (m = HttpMethod.POST ∧ path = "/analyze") := fun hc => h2 hc.1
    simp [expressDispatch, corsMiddleware, h1, hcond]

/-- Claim C5 witness: the GET method. -/
theorem c5_methods_witness :
    (HttpMethod.GET ≠ .OPTIONS) ∧ (HttpMethod.GET ≠ .POST)
    ∧ (vercelHandler ⟨some "k", none, none⟩ .OPTIONS (some "img") (Except.ok "ok")
        = (⟨200, .empty⟩, false)
      ∧ vercelHandler ⟨some "k", none, none⟩ .GET (some "img") (Except.ok "ok")
        = (⟨405, .errJson "Method Not Allowed"⟩, false)
      ∧ expressDispatch ⟨some "k", none⟩ .OPTIONS "/analyze" (some "img") (Except.ok "ok")
        = ⟨204, .empty⟩
      ∧ (expressDispatch ⟨some "k", none⟩ .GET "/analyze" (some "img") (Except.ok "ok")).status
        = 404) :=
  ⟨by decide, by decide,
    c5_methods ⟨some "k", none, none⟩ ⟨some "k", none⟩ .GET "/analyze" (some "img")
      (Except.ok "ok") (by decide) (by decide)⟩

/-! ## UI state shell (`src/App.tsx`, `src/types.ts`) -/

/-- The `AppState` enumeration of `src/types.ts`. -/
inductive AppState
  | IDLE | ANALYZING | SUCCESS | ERROR
deriving DecidableEq

/-- `PreventionMeasure.category` of `src/types.ts`. -/
inductive MeasureCategory
  | Environment | Physical | Medication | Care | Other
deriving DecidableEq

/-- `PreventionMeasure` of `src/types.ts`. -/
structure PreventionMeasure where
  measure : String
  rationale : String
  category : MeasureCategory
deriving DecidableEq

/-- `FallAnalysis` of `src/types.ts`. -/
structure FallAnalysis where
  detectedTextSummary : String
  possibleCauses : List String
  preventionStrategies : List PreventionMeasure
  handoverNote : String
deriving DecidableEq

/-- The four `useState` hooks of the `App` component. -/
structure AppSt where
  appState : AppState
  analysis : Option FallAnalysis
  errorMsg : String
  currentImage : Option String
deriving DecidableEq

/-- The initial `useState` values (`App.tsx` lines 9–12). -/
def initialAppSt : AppSt := ⟨.IDLE, none, "", none⟩

/-- The synchronous part of `handleImageSelected` before the `await`:
enter ANALYZING, remember the image, clear the error. -/
def handleImageSelectedStart (st : AppSt) (base64 : String) : AppSt :=
  { st with appState := .ANALYZING, currentImage := some base64, errorMsg := "" }

/-- Continuation when `analyzeFallReport` resolves: store the result and
enter SUCCESS. -/
def handleImageSelectedResolve (st : AppSt) (result : FallAnalysis) : AppSt :=
  { st with analysis := some result, appState := .SUCCESS }

/-- The `catch` branch of `handleImageSelected`: the thrown value's
message when it is an `Error` (`none` models a thrown non-`Error`, which
yields `未知錯誤`), then `setErrorMsg(message || fallback)`. -/
def handleImageSelectedReject (st : AppSt) (thrownMessage : Option String) : AppSt :=
  let message :=
    match thrownMessage with
    | some m => m
    | none => "未知錯誤"
  let shown :=
    if message = "" then "分析失敗，請檢查網絡或照片清晰度，然後重試。" else message
  { st with appState := .ERROR, errorMsg := shown }

/-- `handleReset` (`App.tsx` lines 32–37): IDLE, null analysis, null
image, empty error. -/
def handleReset (st : AppSt) : AppSt :=
  { st with appState := .IDLE, analysis := none, currentImage := none, errorMsg := "" }

/-- Events driving the UI state machine: the user submitting image(s),
the analysis request resolving or rejecting, and the reset/retry button. -/
inductive UiEvent
  | submit | resolveOk | resolveErr | reset
deriving DecidableEq

/-- The transition function of the `App` component on `AppState`.
`none` means the event cannot occur in that state: the IDLE view is the
only one rendering `CameraInput` (with `disabled={false}`), so `submit`
fires only from IDLE; `resolveOk`/`resolveErr` terminate the single
request started by that `submit`, so they fire only in ANALYZING; the
SUCCESS view's reset button and the ERROR view's retry button both call
`handleReset`; the ANALYZING view renders only a spinner and exposes no
action. -/
def appStep : AppState → UiEvent → Option AppState
  | .IDLE, .submit => some .ANALYZING
  | .ANALYZING, .resolveOk => some .SUCCESS
  | .ANALYZING, .resolveErr => some .ERROR
  | .SUCCESS, .reset => some .IDLE
  | .ERROR, .reset => some .IDLE
  | _, _ => none

/-- Number of in-flight analysis requests while in a given state: one
request is outstanding exactly while ANALYZING. -/
def inFlight : AppState → Nat
  | .ANALYZING => 1
  | _ => 0

/-- Claim C6: the UI state machine makes exactly the five listed
transitions (Idle→Analyzing on submit, Analyzing→Success on resolve,
Analyzing→Error on reject recording the error message, Success→Idle and
Error→Idle on reset) and no others; a second submission is impossible
while a request is in flight, and no state has more than one in-flight
request. -/
theorem c6_state_machine (st : AppSt) (m : String) (hm : m ≠ "") :
    (∀ s e s', appStep s e = some s' ↔
      ((s = .IDLE ∧ e = .submit ∧ s' = .ANALYZING)
       ∨ (s = .ANALYZING ∧ e = .resolveOk ∧ s' = .SUCCESS)
       ∨ (s = .ANALYZING ∧ e = .resolveErr ∧ s' = .ERROR)
       ∨ (s = .SUCCESS ∧ e = .reset ∧ s' = .IDLE)
       ∨ (s = .ERROR ∧ e = .reset ∧ s' = .IDLE)))
    ∧ (∀ s, inFlight s ≤ 1)
    ∧ appStep .ANALYZING .submit = none
    ∧ (handleImageSelectedReject st (some m)).appState = .ERROR
    ∧ (handleImageSelectedReject st (some m)).errorMsg = m := by
  refine ⟨?_, ?_, rfl, rfl, ?_⟩
  · intro s e s'
    cases s <;> cases e <;> cases s' <;> simp [appStep]
  · intro s
    cases s <;> simp [inFlight]
  · simp [handleImageSelectedReject, hm]

/-- Claim C6 witness: a concrete rejection message. -/
theorem c6_state_machine_witness :
    ("boom" : String) ≠ ""
    ∧ ((∀ s e s', appStep s e = some s' ↔
        ((s = .IDLE ∧ e = .submit ∧ s' = .ANALYZING)
         ∨ (s = .ANALYZING ∧ e = .resolveOk ∧ s' = .SUCCESS)
         ∨ (s = .ANALYZING ∧ e = .resolveErr ∧ s' = .ERROR)
         ∨ (s = .SUCCESS ∧ e = .reset ∧ s' = .IDLE)
         ∨ (s = .ERROR ∧ e = .reset ∧ s' = .IDLE)))
      ∧ (∀ s, inFlight s ≤ 1)
      ∧ appStep .ANALYZING .submit = none
      ∧ (handleImageSelectedReject initialAppSt (some "boom")).appState = .ERROR
      ∧ (handleImageSelectedReject initialAppSt (some "boom")).errorMsg = "boom") :=
  ⟨by decide, c6_state_machine initialAppSt "boom" (by decide)⟩

/-- Claim C9: `handleReset` restores exactly the initial application state
from any state — IDLE, no analysis, no image, empty error — and is
idempotent. -/
theorem c9_reset_restores_initial (st : AppSt) :
    handleReset st = initialAppSt
    ∧ (handleReset st).appState = .IDLE
    ∧ (handleReset st).analysis = none
    ∧ (handleReset st).currentImage = none
    ∧ (handleReset st).errorMsg = ""
    ∧ handleReset (handleReset st) = handleReset st :=
  ⟨rfl, rfl, rfl, rfl, rfl, rfl⟩

/-! ## Front-camera mirroring (`CameraInput.tsx` variants 2 and 3)

Variant 3's `processImageToBase64` applies `ctx.translate(newWidth, 0);
ctx.scale(-1, 1)` before `drawImage` when `facingMode === 'user'`, so
output column `x` receives the scaled frame's column `w - 1 - x`; rear
('environment') captures are drawn unchanged. Variant 2's multi-image
`processImage` applies no transform for either facing mode, although that
variant also supports the live camera and tracks `facingMode`. Both are
modelled at the encoded resolution: a frame is a pixel value per column
and row. -/

/-- Camera facing mode (`facingMode` state in `CameraInput.tsx`). -/
inductive FacingMode
  | user | environment
deriving DecidableEq

/-- A pixel frame at the encoded resolution: value at column `x`, row `y`. -/
def Frame : Type := Nat → Nat → Nat

/-- Horizontal mirror of a frame that is `w` columns wide. -/
def hmirror (w : Nat) (f : Frame) : Frame := fun x y => f (w - 1 - x) y

/-- Pixel stage of variant 3's `processImageToBase64`: mirror when the
front lens is active, identity otherwise. -/
def processImageToBase64Pixels (facing : FacingMode) (w : Nat) (f : Frame) : Frame :=
  match facing with
  | .user => fun x y => f (w - 1 - x) y
  | .environment => f

/-- Pixel stage of variant 2's `processImage`: `ctx.drawImage(source, 0, 0,
w, h)` with no transform, for either facing mode. -/
def processImagePixels (facing : FacingMode) (w : Nat) (f : Frame) : Frame :=
  match facing, w with
  | _, _ => f

/-- Row `y` of a `w`-column frame, read left to right. -/
def frameRow (w : Nat) (f : Frame) (y : Nat) : List Nat :=
  (List.range w).map (fun x => f x y)

/-- Claim C7 counterexample: the multi-image capture variant supports the
live camera but encodes front-lens frames unmirrored — on the 2-pixel-wide
frame whose columns are 0 and 1, its output pixel (0,0) is 0 while the
horizontal mirror has 1 there. -/
theorem c7_counterexample :
    processImagePixels .user 2 (fun x _ => x) 0 0 = 0
    ∧ hmirror 2 (fun x _ => x) 0 0 = 1
    ∧ processImagePixels .user 2 (fun x _ => x) 0 0
        ≠ hmirror 2 (fun x _ => x) 0 0 := by
  refine ⟨rfl, rfl, by decide⟩

/-- Claim C7 (amended): in the single-image live-camera variant
(`processImageToBase64`), every front-lens frame is encoded as the
horizontal mirror of the unmirrored sensor frame — each pixel row of the
output is the reverse of the corresponding sensor row, and mirroring
twice restores the frame — while rear-lens frames are encoded unchanged;
the multi-image variant's `processImage` encodes frames unchanged for
both lenses. -/
theorem c7_front_mirror (w : Nat) (f : Frame) (x y : Nat) (hx : x < w) :
    (∀ y', frameRow w (processImageToBase64Pixels .user w f) y'
        = (frameRow w f y').reverse)
    ∧ processImageToBase64Pixels .environment w f = f
    ∧ processImageToBase64Pixels .user w (processImageToBase64Pixels .user w f) x y
        = f x y
    ∧ processImagePixels .user w f = f := by
  refine ⟨?_, rfl, ?_, rfl⟩
  · intro y'
    refine List.ext_getElem (by simp [frameRow]) ?_
    intro i hi1 hi2
    have hiw : i < w := by simpa [frameRow] using hi1
    simp [frameRow, processImageToBase64Pixels, List.getElem_reverse]
  · show f (w - 1 - (w - 1 - x)) y = f x y
    rw [show w - 1 - (w - 1 - x) = x by omega]

/-- Claim C7 witness: the 2-pixel-wide frame with distinct columns. -/
theorem c7_front_mirror_witness :
    (1 : Nat) < 2
    ∧ ((∀ y', frameRow 2 (processImageToBase64Pixels .user 2 (fun x _ => x)) y'
          = (frameRow 2 (fun x _ => x) y').reverse)
      ∧ processImageToBase64Pixels .environment 2 (fun x _ => x) = (fun x _ => x)
      ∧ processImageToBase64Pixels .user 2
          (processImageToBase64Pixels .user 2 (fun x _ => x)) 1 0
          = (fun (x _ : Nat) => x) 1 0
      ∧ processImagePixels .user 2 (fun x _ => x) = (fun x _ => x)) :=
  ⟨by decide, c7_front_mirror 2 (fun x _ => x) 1 0 (by decide)⟩

/-! ## Multi-image staging list (`CameraInput.tsx` variant 2) -/

/-- The index filter of the staging-list remove button,
`prev.filter((_, idx) => idx !== i)`, with `k` the running index that
`Array.prototype.filter` supplies. -/
def filterIdxNe (i : Nat) : Nat → List String → List String
  | _, [] => []
  | k, a :: as =>
    if k = i then filterIdxNe i (k + 1) as
    else a :: filterIdxNe i (k + 1) as

/-- The remove button's state update
`setCapturedImages(prev => prev.filter((_, idx) => idx !== i))`. -/
def removeCaptured (l : List String) (i : Nat) : List String :=
  filterIdxNe i 0 l

/-- `handleCapture`'s state update `setCapturedImages(prev => [...prev, base64])`. -/
def appendCaptured (l : List String) (img : String) : List String :=
  l ++ [img]

lemma filterIdxNe_eq (i : Nat) (l : List String) :
    ∀ k, filterIdxNe i k l
      = if i < k then l else l.take (i - k) ++ l.drop (i - k + 1) := by
  induction l with
  | nil => intro k; simp [filterIdxNe]
  | cons a as ih =>
    intro k
    by_cases hk : k = i
    · subst hk
      rw [filterIdxNe, if_pos rfl, ih (k + 1), if_pos (Nat.lt_succ_self k),
        if_neg (lt_irrefl k)]
      simp
    · rw [filterIdxNe, if_neg hk, ih (k + 1)]
      by_cases hik : i < k
      · rw [if_pos (by omega), if_pos hik]
      · rw [if_neg (by omega), if_neg hik]
        have h1 : i - k = (i - (k + 1)) + 1 := by omega
        rw [h1]
        simp [List.take_succ_cons, List.drop_succ_cons]

/-- Claim C8: removing the image at index `i` from the staging list yields
the same list with exactly that entry deleted — the entries before `i`
and after `i` survive unchanged and in order — and appending a new image
leaves all existing entries and their order unchanged. -/
theorem c8_staging_list (l : List String) (i : Nat) (img : String) :
    removeCaptured l i = l.take i ++ l.drop (i + 1)
    ∧ (appendCaptured l img).take l.length = l
    ∧ (appendCaptured l img).length = l.length + 1
    ∧ (appendCaptured l img).drop l.length = [img] := by
  refine ⟨?_, ?_, by simp [appendCaptured], by simp [appendCaptured]⟩
  · rw [removeCaptured, filterIdxNe_eq]
    simp
  · simp [appendCaptured, List.take_left]

/-! ## File-upload batch (`handleFiles`, `CameraInput.tsx` variant 2) -/

/-- The per-file outcome inside `handleFiles`: a non-string reader result
resolves the empty string directly; otherwise `processImage` runs, which
returns the empty string when the canvas context is unavailable and the
encoded base64 payload otherwise. -/
def handleFilesOne (readerResult : Option String) (ctxAvailable : Bool)
    (encoded : String) : String :=
  match readerResult with
  | none => ""
  | some _ => if ctxAvailable then encoded else ""

/-- The batch append at the end of `handleFiles`:
`setCapturedImages(prev => [...prev, ...imgs.filter(img => img !== '')])`. -/
def handleFilesAppend (prev imgs : List String) : List String :=
  prev ++ imgs.filter (fun img => img != "")

/-- Claim C10: per-file processing failures (non-string reader result, or
missing canvas context) yield the empty string, the batch filter drops
every empty string, and so the file-upload path preserves the invariant
that the staging list holds no empty image payload. -/
theorem c10_no_empty_staged (prev imgs : List String)
    (readerResult : Option String) (ctxAvailable : Bool) (encoded : String)
    (hprev : ∀ x ∈ prev, x ≠ "") :
    handleFilesOne none ctxAvailable encoded = ""
    ∧ handleFilesOne readerResult false encoded = ""
    ∧ (∀ x ∈ imgs.filter (fun img => img != ""), x ≠ "")
    ∧ (∀ x ∈ handleFilesAppend prev imgs, x ≠ "") := by
  have hfilter : ∀ x ∈ imgs.filter (fun img => img != ""), x ≠ "" := by
    intro x hx
    have := List.of_mem_filter hx
    simpa using this
  refine ⟨rfl, ?_, hfilter, ?_⟩
  · cases readerResult <;> rfl
  · intro x hx
    rcases List.mem_append.mp hx with hx | hx
    · exact hprev x hx
    · exact hfilter x hx

/-- Claim C10 witness: a staging list `["a"]`, a batch containing an empty
payload, and both failure shapes. -/
theorem c10_no_empty_staged_witness :
    (∀ x ∈ ["a"], x ≠ "")
    ∧ (handleFilesOne none false "enc" = ""
      ∧ handleFilesOne (some "data:url") false "enc" = ""
      ∧ (∀ x ∈ List.filter (fun img => img != "") ["", "b"], x ≠ "")
      ∧ (∀ x ∈ handleFilesAppend ["a"] ["", "b"], x ≠ "")) :=
  ⟨by decide, c10_no_empty_staged ["a"] ["", "b"] (some "data:url") false "enc"
    (by decide)⟩
